import Mathlib

/-!
Shallow embedding of `src/frontend/src/components/Table.jsx`: the `Table`
(lead list view) component and the `LeadModal` (lead editor) component of the
Leads_CRM frontend, together with theorems checking the specification's
claims about them.

Modelling conventions:
  * React `useState` slots become fields of explicit state records
    (`ViewState` for `Table`, `FormState` for `LeadModal`, combined in
    `AppState`); each event handler becomes a function from state (and the
    network response it awaits) to new state.
  * `fetch` is modelled by passing in the `Response` the call resolves to;
    every handler also returns the list of `Request`s it issued, so
    "exactly one reload request" style claims are statable.
  * JavaScript truthiness of the `loaded && leads` guard and of the
    `activeModal` slot (which holds `true`, `false` or `null` in the code)
    is modelled explicitly (`leadsTruthy`, `Option Bool` with `isActive`).
  * `moment(ts).format('MMM Do YY')` is an external-library call; its
    English-locale output for a timestamp with a given calendar
    year/month/day is modelled by `momentFormatMMMDoYY` on a `Date` record
    (abbreviated month, ordinal day, zero-padded two-digit year).
  * `JSON.stringify` on the flat all-string object built in
    `handleCreateLead` is modelled by `jsonStringifyFlat` with the
    ECMAScript string-escaping rules (`jsonEscapeChar`).
-/

/-- Calendar date carried by a lead's `date_last_updated` timestamp
(the part consumed by the `MMM Do YY` format). -/
structure Date where
  year : Nat
  month : Nat
  day : Nat
deriving Repr, DecidableEq

/-- A lead record as returned by `GET /api/leads`:
`id, first_name, last_name, company, email, note, date_last_updated`. -/
structure Lead where
  id : Nat
  first_name : String
  last_name : String
  company : String
  email : String
  note : String
  date_last_updated : Date
deriving Repr, DecidableEq

/-- A fetch response: `ok` is `response.ok`; `data` is the JSON body,
consumed only on the `GET` success path. -/
structure Response where
  ok : Bool
  data : List Lead
deriving Repr, DecidableEq

/-- A network request issued by a handler. -/
inductive Request where
  | get (auth : String)
  | post (auth : String) (body : String)
deriving Repr, DecidableEq

/-- State owned by the `Table` component: the `useState` slots
`leads` (initially `null`), `errorMessage`, `loaded`, `activeModal`
(holds `true`, `false` or `null` in the code, hence `Option Bool`),
and `id`. -/
structure ViewState where
  leads : Option (List Lead)
  errorMessage : String
  loaded : Bool
  activeModal : Option Bool
  id : Option Nat
deriving Repr, DecidableEq

/-- Initial `Table` state: `leads = null`, `errorMessage = ''`,
`loaded = false`, `activeModal = false`, `id = null`. -/
def initViewState : ViewState :=
  { leads := none, errorMessage := "", loaded := false,
    activeModal := some false, id := none }

/-- JavaScript truthiness of the `leads` slot: `null` is falsy, any array
(including `[]`) is truthy. -/
def leadsTruthy : Option (List Lead) → Bool
  | none => false
  | some _ => true

/-- JavaScript truthiness of the `activeModal` slot (`null` is falsy). -/
def isActive : Option Bool → Bool
  | none => false
  | some b => b

/-- The fixed message set by `getLeads` on a non-ok response. -/
def loadFailedMsg : String := "Something went wrong!"

/-- The fixed message set by `handleCreateLead` on a non-ok response. -/
def createFailedMsg : String := "Something went wrong when creating lead"

/-- The `getLeads` handler of `Table`: issues one authenticated `GET`;
on `!response.ok` sets the error message, otherwise stores the body in
`leads` and sets `loaded`. Returns the new state and the requests issued. -/
def getLeads (token : String) (resp : Response) (s : ViewState) :
    ViewState × List Request :=
  let req := Request.get ("Bearer " ++ token)
  if !resp.ok then
    ({ s with errorMessage := loadFailedMsg }, [req])
  else
    ({ s with leads := some resp.data, loaded := true }, [req])

/-- The `handleModal` handler of `Table` (the close/completion callback
passed to `LeadModal`): toggles `activeModal`, calls `getLeads()` (whose
fetch resolves to `resp`), then sets `activeModal` to `null`. -/
def handleModal (token : String) (resp : Response) (s : ViewState) :
    ViewState × List Request :=
  let s1 := { s with activeModal := some (!(isActive s.activeModal)) }
  let (s2, reqs) := getLeads token resp s1
  ({ s2 with activeModal := none }, reqs)

/-- Abbreviated English month names used by moment's `MMM` token
(month is 1-based). -/
def monthAbbrev (m : Nat) : String :=
  match m with
  | 1 => "Jan" | 2 => "Feb" | 3 => "Mar" | 4 => "Apr"
  | 5 => "May" | 6 => "Jun" | 7 => "Jul" | 8 => "Aug"
  | 9 => "Sep" | 10 => "Oct" | 11 => "Nov" | 12 => "Dec"
  | _ => "Invalid date"

/-- English ordinal suffix used by moment's `Do` token:
`st`, `nd`, `rd` on final digit 1, 2, 3 except for 11..13, else `th`. -/
def ordinalSuffix (n : Nat) : String :=
  if 11 ≤ n % 100 && n % 100 ≤ 13 then "th"
  else match n % 10 with
    | 1 => "st"
    | 2 => "nd"
    | 3 => "rd"
    | _ => "th"

/-- Moment's `Do` token: the day number followed by its ordinal suffix. -/
def formatDo (n : Nat) : String := toString n ++ ordinalSuffix n

/-- Moment's `YY` token: the year modulo 100, zero-padded to two digits. -/
def formatYY (y : Nat) : String :=
  if y % 100 < 10 then "0" ++ toString (y % 100) else toString (y % 100)

/-- Output of `moment(ts).format('MMM Do YY')` (English locale) for a
timestamp whose calendar date is `d`: abbreviated month name, ordinal day,
two-digit year, space-separated. -/
def momentFormatMMMDoYY (d : Date) : String :=
  monthAbbrev d.month ++ " " ++ formatDo d.day ++ " " ++ formatYY d.year

/-- One rendered `<tr>` of the table body: the six data cells produced for a
lead (the seventh cell holds only the inert Update/Delete buttons). -/
structure RenderedRow where
  firstName : String
  lastName : String
  company : String
  email : String
  note : String
  dateCell : String
deriving Repr, DecidableEq

/-- The row rendered for one lead by `leads.map(...)`: the five field cells
verbatim and the formatted date cell. -/
def renderRow (l : Lead) : RenderedRow :=
  { firstName := l.first_name, lastName := l.last_name,
    company := l.company, email := l.email, note := l.note,
    dateCell := momentFormatMMMDoYY l.date_last_updated }

/-- The `loaded && leads ? <table>...</table> : <p>Loading</p>` render:
`some rows` when the table is shown (one body row per lead), `none` when
the Loading placeholder is shown. -/
def renderTable (s : ViewState) : Option (List RenderedRow) :=
  if s.loaded && leadsTruthy s.leads then
    some ((s.leads.getD []).map renderRow)
  else none

/-- Lowercase hexadecimal digit character for `n < 16`. -/
def hexDigit (n : Nat) : Char :=
  if n < 10 then Char.ofNat (48 + n) else Char.ofNat (87 + n)

/-- ECMAScript `QuoteJSONString` escaping of one character: named escapes,
then `\u00` plus two lowercase hex digits for the remaining control
characters. -/
def jsonEscapeChar (c : Char) : String :=
  if c = '"' then "\\\""
  else if c = '\\' then "\\\\"
  else if c = '\x08' then "\\b"
  else if c = '\x0c' then "\\f"
  else if c = '\n' then "\\n"
  else if c = '\r' then "\\r"
  else if c = '\t' then "\\t"
  else if c.toNat < 0x20 then
    "\\u00" ++ (hexDigit (c.toNat / 16)).toString ++
      (hexDigit (c.toNat % 16)).toString
  else c.toString

/-- ECMAScript escaping of a whole string (body of a JSON string literal). -/
def jsonEscape (s : String) : String :=
  String.join (s.toList.map jsonEscapeChar)

/-- `JSON.stringify` of a flat object whose values are all strings, with
keys in insertion order. -/
def jsonStringifyFlat (kvs : List (String × String)) : String :=
  "\x7b" ++
    String.intercalate ","
      (kvs.map fun kv =>
        "\"" ++ jsonEscape kv.1 ++ "\":\"" ++ jsonEscape kv.2 ++ "\"") ++
  "\x7d"

/-- State owned by `LeadModal`: the five `useState` string slots, all
initialized to `''`. -/
structure FormState where
  firstName : String
  lastName : String
  company : String
  email : String
  note : String
deriving Repr, DecidableEq

/-- Initial `LeadModal` form state: every field the empty string. -/
def initFormState : FormState :=
  { firstName := "", lastName := "", company := "", email := "", note := "" }

/-- The five form fields of `LeadModal`. -/
inductive FormField where
  | firstName | lastName | company | email | note
deriving Repr, DecidableEq

/-- One `onChange` handler of `LeadModal`: `setFirstName(v)`, `setLastName(v)`,
etc., selected by field. -/
def updateField (f : FormField) (v : String) (s : FormState) : FormState :=
  match f with
  | .firstName => { s with firstName := v }
  | .lastName => { s with lastName := v }
  | .company => { s with company := v }
  | .email => { s with email := v }
  | .note => { s with note := v }

/-- `cleanFormData` of `LeadModal`: resets every field to `''`. -/
def cleanFormData (_ : FormState) : FormState := initFormState

/-- The key/value pairs of the object literal built in `handleCreateLead`,
in source order. -/
def leadBodyFields (f : FormState) : List (String × String) :=
  [("first_name", f.firstName), ("last_name", f.lastName),
   ("company", f.company), ("email", f.email), ("note", f.note)]

/-- The `JSON.stringify` body sent by `handleCreateLead`. -/
def leadBody (f : FormState) : String :=
  jsonStringifyFlat (leadBodyFields f)

/-- Combined application state: `Table` view state plus `LeadModal` form
state (`LeadModal` writes errors through the `setErrorMessage` setter the
`Table` passes down, so the error slot lives in `view`). -/
structure AppState where
  view : ViewState
  form : FormState
deriving Repr, DecidableEq

/-- The `handleCreateLead` handler of `LeadModal`: issues one authenticated
`POST` with the serialized form; on `!response.ok` sets the parent's error
message; otherwise runs `cleanFormData()` then `handleModal()` (whose inner
`getLeads()` fetch resolves to `getResp`). -/
def handleCreateLead (token : String) (postResp : Response)
    (getResp : Response) (s : AppState) : AppState × List Request :=
  let req := Request.post ("Bearer " ++ token) (leadBody s.form)
  if !postResp.ok then
    ({ s with view := { s.view with errorMessage := createFailedMsg } }, [req])
  else
    let form1 := cleanFormData s.form
    let (v1, reqs) := handleModal token getResp s.view
    ({ view := v1, form := form1 }, req :: reqs)

/-- The Cancel button's `onClick`: the `handleModal` prop, i.e. exactly the
completion callback the success path of `handleCreateLead` invokes; the form
state is untouched and nothing is posted. -/
def cancel (token : String) (getResp : Response) (s : AppState) :
    AppState × List Request :=
  let (v1, reqs) := handleModal token getResp s.view
  ({ s with view := v1 }, reqs)

/-- `getLeads` lifted to the combined state (it never touches the form). -/
def appGetLeads (token : String) (resp : Response) (s : AppState) :
    AppState × List Request :=
  let (v1, reqs) := getLeads token resp s.view
  ({ s with view := v1 }, reqs)

/-- Number of `GET /api/leads` (reload) requests in a trace. -/
def countGets (reqs : List Request) : Nat :=
  (reqs.filter fun r => match r with | .get _ => true | .post _ _ => false).length

/-- Number of `POST /api/leads` requests in a trace. -/
def countPosts (reqs : List Request) : Nat :=
  (reqs.filter fun r => match r with | .get _ => false | .post _ _ => true).length

/-- A concrete lead used by witnesses. -/
def sampleLead : Lead :=
  { id := 1, first_name := "Ada", last_name := "Lovelace", company := "ACME",
    email := "ada@acme.io", note := "call back", date_last_updated := ⟨2024, 1, 2⟩ }

/-- A concrete `Table` state in which a list has already been loaded. -/
def loadedState : ViewState :=
  { leads := some [sampleLead], errorMessage := "", loaded := true,
    activeModal := some false, id := none }

/-- A concrete combined state with user-entered form data and a loaded list. -/
def enteredState : AppState :=
  { view := loadedState,
    form := { firstName := "Grace", lastName := "Hopper", company := "Navy",
              email := "g@navy.mil", note := "demo" } }

/-- Initial combined application state. -/
def initAppState : AppState := { view := initViewState, form := initFormState }

/-- Claim C1: for every `getLeads` invocation whose response is not ok, the
error message becomes the fixed string "Something went wrong!" while the
lead list, the loaded flag and hence the rendered table are unchanged. -/
theorem getLeads_failure_sets_fixed_message_and_preserves_list
    (token : String) (resp : Response) (s : ViewState) (h : resp.ok = false) :
    (getLeads token resp s).1.errorMessage = "Something went wrong!" ∧
    (getLeads token resp s).1.leads = s.leads ∧
    (getLeads token resp s).1.loaded = s.loaded ∧
    renderTable (getLeads token resp s).1 = renderTable s := by
  simp [getLeads, h, loadFailedMsg, renderTable]

/-- Witness for C1: a failed reload over a previously loaded one-lead list. -/
theorem getLeads_failure_witness :
    (getLeads "tok" { ok := false, data := [] } loadedState).1.errorMessage =
      "Something went wrong!" ∧
    (getLeads "tok" { ok := false, data := [] } loadedState).1.leads =
      loadedState.leads ∧
    (getLeads "tok" { ok := false, data := [] } loadedState).1.loaded =
      loadedState.loaded ∧
    renderTable (getLeads "tok" { ok := false, data := [] } loadedState).1 =
      renderTable loadedState :=
  getLeads_failure_sets_fixed_message_and_preserves_list
    "tok" { ok := false, data := [] } loadedState rfl

/-- Claim C2: every successful `getLeads` stores the full returned sequence,
sets the loaded flag, and the rendered table has exactly one body row per
returned record whose field cells equal that record's fields verbatim; the
empty sequence renders the table with zero body rows. -/
theorem getLeads_success_replaces_list_and_renders_rows
    (token : String) (resp : Response) (s : ViewState) (h : resp.ok = true) :
    (getLeads token resp s).1.leads = some resp.data ∧
    (getLeads token resp s).1.loaded = true ∧
    renderTable (getLeads token resp s).1 = some (resp.data.map renderRow) ∧
    (resp.data.map renderRow).length = resp.data.length ∧
    (∀ l : Lead, (renderRow l).firstName = l.first_name ∧
      (renderRow l).lastName = l.last_name ∧ (renderRow l).company = l.company ∧
      (renderRow l).email = l.email ∧ (renderRow l).note = l.note) ∧
    (resp.data = [] → renderTable (getLeads token resp s).1 = some []) := by
  refine ⟨?_, ?_, ?_, ?_, ?_, ?_⟩ <;>
    simp [getLeads, h, renderTable, leadsTruthy, renderRow]

/-- Witness for C2: a successful load of the empty list over the initial
state renders the table with zero body rows. -/
theorem getLeads_success_witness :
    (getLeads "tok" { ok := true, data := [] } initViewState).1.leads = some [] ∧
    (getLeads "tok" { ok := true, data := [] } initViewState).1.loaded = true ∧
    renderTable (getLeads "tok" { ok := true, data := [] } initViewState).1 =
      some (([] : List Lead).map renderRow) ∧
    (([] : List Lead).map renderRow).length = ([] : List Lead).length ∧
    (∀ l : Lead, (renderRow l).firstName = l.first_name ∧
      (renderRow l).lastName = l.last_name ∧ (renderRow l).company = l.company ∧
      (renderRow l).email = l.email ∧ (renderRow l).note = l.note) ∧
    (([] : List Lead) = [] →
      renderTable (getLeads "tok" { ok := true, data := [] } initViewState).1 =
        some []) :=
  getLeads_success_replaces_list_and_renders_rows
    "tok" { ok := true, data := [] } initViewState rfl

/-- Counterexample for C3: at a concrete failed create over the initial
state, the error message set by `handleCreateLead` is not the string
"failed when creating lead" the claim names. -/
theorem handleCreateLead_failure_message_counterexample :
    (handleCreateLead "tok" { ok := false, data := [] } { ok := true, data := [] }
        initAppState).1.view.errorMessage ≠ "failed when creating lead" := by
  decide

/-- Claim C3 (amended): for every `handleCreateLead` invocation whose response
is not ok, the error message is set to the distinct fixed CreateFailed string
"Something went wrong when creating lead", and the five form field values and
the modal's open state are left exactly as the user entered them. -/
theorem handleCreateLead_failure_sets_message_preserves_form
    (token : String) (pr gr : Response) (s : AppState) (h : pr.ok = false) :
    (handleCreateLead token pr gr s).1.view.errorMessage =
      "Something went wrong when creating lead" ∧
    (handleCreateLead token pr gr s).1.form = s.form ∧
    (handleCreateLead token pr gr s).1.view.activeModal = s.view.activeModal := by
  simp [handleCreateLead, h, createFailedMsg]

/-- Witness for C3 at a state with user-entered form data. -/
theorem handleCreateLead_failure_witness :
    (handleCreateLead "tok" { ok := false, data := [] } { ok := true, data := [] }
        enteredState).1.view.errorMessage =
      "Something went wrong when creating lead" ∧
    (handleCreateLead "tok" { ok := false, data := [] } { ok := true, data := [] }
        enteredState).1.form = enteredState.form ∧
    (handleCreateLead "tok" { ok := false, data := [] } { ok := true, data := [] }
        enteredState).1.view.activeModal = enteredState.view.activeModal :=
  handleCreateLead_failure_sets_message_preserves_form
    "tok" { ok := false, data := [] } { ok := true, data := [] } enteredState rfl

/-- Claim C4: every successful `handleCreateLead` resets all five form fields
to the empty string and invokes the completion callback `handleModal`,
issuing the parent's reload request exactly once. -/
theorem handleCreateLead_success_clears_form_and_reloads_once
    (token : String) (pr gr : Response) (s : AppState) (h : pr.ok = true) :
    (handleCreateLead token pr gr s).1.form.firstName = "" ∧
    (handleCreateLead token pr gr s).1.form.lastName = "" ∧
    (handleCreateLead token pr gr s).1.form.company = "" ∧
    (handleCreateLead token pr gr s).1.form.email = "" ∧
    (handleCreateLead token pr gr s).1.form.note = "" ∧
    countGets (handleCreateLead token pr gr s).2 = 1 := by
  rcases gr with ⟨ok, data⟩
  cases ok <;>
    simp [handleCreateLead, h, handleModal, getLeads, cleanFormData,
      initFormState, countGets]

/-- Witness for C4: a successful create from user-entered data. -/
theorem handleCreateLead_success_witness :
    (handleCreateLead "tok" { ok := true, data := [] } { ok := true, data := [sampleLead] }
        enteredState).1.form.firstName = "" ∧
    (handleCreateLead "tok" { ok := true, data := [] } { ok := true, data := [sampleLead] }
        enteredState).1.form.lastName = "" ∧
    (handleCreateLead "tok" { ok := true, data := [] } { ok := true, data := [sampleLead] }
        enteredState).1.form.company = "" ∧
    (handleCreateLead "tok" { ok := true, data := [] } { ok := true, data := [sampleLead] }
        enteredState).1.form.email = "" ∧
    (handleCreateLead "tok" { ok := true, data := [] } { ok := true, data := [sampleLead] }
        enteredState).1.form.note = "" ∧
    countGets (handleCreateLead "tok" { ok := true, data := [] }
        { ok := true, data := [sampleLead] } enteredState).2 = 1 :=
  handleCreateLead_success_clears_form_and_reloads_once
    "tok" { ok := true, data := [] } { ok := true, data := [sampleLead] }
    enteredState rfl

/-- Claim C5: every `handleCreateLead` invocation posts exactly one request,
first in its trace, whose body is the flat JSON object with exactly the keys
first_name, last_name, company, email, note mapped to the current field
values (no id, no timestamp key); with all five fields empty the body is
still sent and equals the literal empty-fields object. -/
theorem handleCreateLead_post_body
    (token : String) (pr gr : Response) (s : AppState) :
    (handleCreateLead token pr gr s).2.head? =
      some (Request.post ("Bearer " ++ token)
        (jsonStringifyFlat (leadBodyFields s.form))) ∧
    (leadBodyFields s.form).map Prod.fst =
      ["first_name", "last_name", "company", "email", "note"] ∧
    (leadBodyFields s.form).map Prod.snd =
      [s.form.firstName, s.form.lastName, s.form.company, s.form.email,
       s.form.note] ∧
    countPosts (handleCreateLead token pr gr s).2 = 1 ∧
    leadBody initFormState =
      "\x7b\"first_name\":\"\",\"last_name\":\"\",\"company\":\"\",\"email\":\"\",\"note\":\"\"\x7d" := by
  rcases pr with ⟨ok, data⟩
  rcases gr with ⟨ok2, data2⟩
  cases ok <;> cases ok2 <;>
    exact ⟨rfl, rfl, rfl, rfl, by decide⟩

/-- Claim C6: the Cancel button invokes exactly the `handleModal` callback the
success path of `handleCreateLead` invokes; it submits nothing, issues exactly
one reload request, and leaves the modal closed. -/
theorem cancel_reuses_handleModal_and_reloads_once
    (token : String) (gr : Response) (s : AppState) :
    (cancel token gr s).1.view = (handleModal token gr s.view).1 ∧
    (cancel token gr s).2 = (handleModal token gr s.view).2 ∧
    countGets (cancel token gr s).2 = 1 ∧
    countPosts (cancel token gr s).2 = 0 ∧
    isActive (cancel token gr s).1.view.activeModal = false ∧
    (cancel token gr s).1.form = s.form := by
  rcases gr with ⟨ok, data⟩
  cases ok <;>
    simp [cancel, handleModal, getLeads, countGets, countPosts, isActive]

/-- Claim C7: a successful `getLeads` leaves the error message unchanged:
the success branch never resets it, so pre-existing error text survives a
successful reload. -/
theorem getLeads_success_preserves_errorMessage
    (token : String) (resp : Response) (s : ViewState) (h : resp.ok = true) :
    (getLeads token resp s).1.errorMessage = s.errorMessage := by
  simp [getLeads, h]

/-- Witness for C7: a successful reload over a state holding error text. -/
theorem getLeads_success_preserves_errorMessage_witness :
    (getLeads "tok" { ok := true, data := [sampleLead] }
        { loadedState with errorMessage := "Something went wrong!" }).1.errorMessage =
      ViewState.errorMessage
        { loadedState with errorMessage := "Something went wrong!" } :=
  getLeads_success_preserves_errorMessage
    "tok" { ok := true, data := [sampleLead] }
    { loadedState with errorMessage := "Something went wrong!" } rfl

/-- Claim C8: in a rendered table the i-th body row is exactly `renderRow` of
the i-th listed lead, and every listed lead's own row carries, in its date
column, the deterministic `MMM Do YY` formatting of that lead's own
`date_last_updated`: abbreviated month name, ordinal day, two-digit year. -/
theorem rendered_date_cell_is_momentFormat
    (s : ViewState) (rows : List RenderedRow) (h : renderTable s = some rows) :
    rows = (s.leads.getD []).map renderRow ∧
    ∀ l ∈ s.leads.getD [],
      (renderRow l).dateCell = momentFormatMMMDoYY l.date_last_updated ∧
      momentFormatMMMDoYY l.date_last_updated =
        monthAbbrev l.date_last_updated.month ++ " " ++
          (toString l.date_last_updated.day ++
            ordinalSuffix l.date_last_updated.day) ++ " " ++
          formatYY l.date_last_updated.year := by
  unfold renderTable at h
  split at h
  · injection h with h
    subst h
    exact ⟨rfl, fun l _ => ⟨rfl, rfl⟩⟩
  · exact absurd h (by simp)

/-- Witness for C8 at the loaded one-lead state, together with the spec's
worked example: January 2nd of 2024 renders as "Jan 2nd 24". -/
theorem rendered_date_cell_witness :
    momentFormatMMMDoYY ⟨2024, 1, 2⟩ = "Jan 2nd 24" ∧
    ([renderRow sampleLead] = (loadedState.leads.getD []).map renderRow ∧
     ∀ l ∈ loadedState.leads.getD [],
       (renderRow l).dateCell = momentFormatMMMDoYY l.date_last_updated ∧
       momentFormatMMMDoYY l.date_last_updated =
         monthAbbrev l.date_last_updated.month ++ " " ++
           (toString l.date_last_updated.day ++
             ordinalSuffix l.date_last_updated.day) ++ " " ++
           formatYY l.date_last_updated.year) :=
  ⟨by decide,
   rendered_date_cell_is_momentFormat loadedState [renderRow sampleLead] rfl⟩

/-- Claim C9: both failure kinds write the one error-message slot owned by the
list view (`LeadModal` writes through the `setErrorMessage` setter passed down
by `Table`), so a later failure of either kind overwrites the message left by
the earlier one. -/
theorem error_slot_shared_and_overwritten
    (token : String) (r1 r2 gr : Response) (s : AppState)
    (h1 : r1.ok = false) (h2 : r2.ok = false) :
    (appGetLeads token r2 (handleCreateLead token r1 gr s).1).1.view.errorMessage =
      loadFailedMsg ∧
    (handleCreateLead token r2 gr (appGetLeads token r1 s).1).1.view.errorMessage =
      createFailedMsg := by
  constructor <;> simp [appGetLeads, handleCreateLead, getLeads, h1, h2]

/-- Witness for C9: concrete failed create then failed load, and conversely. -/
theorem error_slot_shared_witness :
    (appGetLeads "tok" { ok := false, data := [] }
        (handleCreateLead "tok" { ok := false, data := [] } { ok := true, data := [] }
          initAppState).1).1.view.errorMessage = loadFailedMsg ∧
    (handleCreateLead "tok" { ok := false, data := [] } { ok := true, data := [] }
        (appGetLeads "tok" { ok := false, data := [] }
          initAppState).1).1.view.errorMessage = createFailedMsg :=
  error_slot_shared_and_overwritten
    "tok" { ok := false, data := [] } { ok := false, data := [] }
    { ok := true, data := [] } initAppState rfl rfl

/-- Claim C10: `updateField` is idempotent: applying it twice with the same
field and value leaves the form state identical to applying it once. -/
theorem updateField_idempotent (f : FormField) (v : String) (s : FormState) :
    updateField f v (updateField f v s) = updateField f v s := by
  cases f <;> rfl
